import Mathlib

/-!
Verification of the override-reconciliation subsystem and related numeric
components of the ra-cme-stress-tool repository.

The development shallowly embeds the Zustand input store
(`useInputStore` in src/web/stores/authStore.ts, lines 156-581: the variant
with fetched defaults and the Grinold-Kroner equity branch), the constant
tables of src/unnamed/part_009 (lib/constants.ts), the `conflicts` derived
value of src/web/hooks/useMacroPreview.ts, the `calculate` pass of
src/web/hooks/useCalculation.ts, and the Grinold-Kroner `valuationChange`
of src/unnamed/part_001 (the GK equity input panel).

JavaScript numbers are modelled as rationals (ℚ) for the store and as
reals (ℝ) where a fractional power occurs.  Non-finite JavaScript values
(NaN, ±Infinity) are modelled separately by the `NumV` type where the
error-handling behaviour of the setters is at issue.

String-keyed records of the source are modelled as functions out of
finite key types; a record key that is absent is `none`.  The source's
`_dirtyMacroFields` record is keyed by strings "region.field" built from a
region and a field name, hence it is modelled as a function of the pair.
-/

namespace RaCme

/-- Macro regions ('us' | 'eurozone' | 'japan' | 'em' in lib/types.ts). -/
inductive MacroRegion where
  | us
  | eurozone
  | japan
  | em
deriving DecidableEq, Fintype

/-- The ten fields of `MacroInputs` in lib/types.ts.  The source field
`my_ratio` is rendered `my_ratio_key` here. -/
inductive MacroKey where
  | inflation_forecast
  | rgdp_growth
  | tbill_forecast
  | population_growth
  | productivity_growth
  | my_ratio_key
  | current_headline_inflation
  | long_term_inflation
  | current_tbill
  | country_factor
deriving DecidableEq, Fintype

/-- Bond types ('global' | 'hy' | 'em'). -/
inductive BondType where
  | global
  | hy
  | em
deriving DecidableEq, Fintype

/-- The fields of `BondInputs` in lib/types.ts (the optional ones are
modelled by `Option` values in the records). -/
inductive BondKey where
  | current_yield
  | duration
  | current_term_premium
  | fair_term_premium
  | credit_spread
  | fair_credit_spread
  | default_rate
  | recovery_rate
deriving DecidableEq, Fintype

/-- Equity regions ('us' | 'europe' | 'japan' | 'em'). -/
inductive EquityRegion where
  | us
  | europe
  | japan
  | em
deriving DecidableEq, Fintype

/-- The fields of `EquityInputs` (RA model) in lib/types.ts. -/
inductive EquityKey where
  | dividend_yield
  | current_caey
  | fair_caey
  | real_eps_growth
  | regional_eps_growth
  | reversion_speed
deriving DecidableEq, Fintype

/-- The fields of `EquityInputsGK` (Grinold-Kroner model) in lib/types.ts. -/
inductive GKKey where
  | dividend_yield
  | net_buyback_yield
  | revenue_growth
  | revenue_gdp_wedge
  | margin_change
  | current_pe
  | target_pe
deriving DecidableEq, Fintype

/-- The fields of `AbsoluteReturnInputs` in lib/types.ts. -/
inductive ARKey where
  | trading_alpha
  | beta_market
  | beta_size
  | beta_value
  | beta_profitability
  | beta_investment
  | beta_momentum
deriving DecidableEq, Fintype

/-- Base currency ('usd' | 'eur'). -/
inductive BaseCurrency where
  | usd
  | eur
deriving DecidableEq, Fintype

/-- Equity model toggle ('ra' | 'gk'). -/
inductive EquityModelType where
  | ra
  | gk
deriving DecidableEq, Fintype

/-- Union of RA and GK equity field names, as they may appear in the
`equity_*` slots of an `Overrides` payload (the two field sets share only
`dividend_yield`). -/
inductive EqOvKey where
  | dividend_yield
  | current_caey
  | fair_caey
  | real_eps_growth
  | regional_eps_growth
  | reversion_speed
  | net_buyback_yield
  | revenue_growth
  | revenue_gdp_wedge
  | margin_change
  | current_pe
  | target_pe
deriving DecidableEq, Fintype

/-- The name of an RA equity field inside an overrides payload. -/
def raOvKey : EquityKey → EqOvKey
  | .dividend_yield => .dividend_yield
  | .current_caey => .current_caey
  | .fair_caey => .fair_caey
  | .real_eps_growth => .real_eps_growth
  | .regional_eps_growth => .regional_eps_growth
  | .reversion_speed => .reversion_speed

/-- The name of a GK equity field inside an overrides payload. -/
def gkOvKey : GKKey → EqOvKey
  | .dividend_yield => .dividend_yield
  | .net_buyback_yield => .net_buyback_yield
  | .revenue_growth => .revenue_growth
  | .revenue_gdp_wedge => .revenue_gdp_wedge
  | .margin_change => .margin_change
  | .current_pe => .current_pe
  | .target_pe => .target_pe

/-- The key list of a `MacroInputs` record, in the declaration order of
lib/types.ts (the order `Object.entries` iterates). -/
def macroKeys : List MacroKey :=
  [.inflation_forecast, .rgdp_growth, .tbill_forecast, .population_growth,
   .productivity_growth, .my_ratio_key, .current_headline_inflation,
   .long_term_inflation, .current_tbill, .country_factor]

/-- The key list of a `BondInputs` record. -/
def bondKeys : List BondKey :=
  [.current_yield, .duration, .current_term_premium, .fair_term_premium,
   .credit_spread, .fair_credit_spread, .default_rate, .recovery_rate]

/-- The key list of an `EquityInputs` (RA) record. -/
def equityKeys : List EquityKey :=
  [.dividend_yield, .current_caey, .fair_caey, .real_eps_growth,
   .regional_eps_growth, .reversion_speed]

/-- The key list of an `EquityInputsGK` record. -/
def gkKeys : List GKKey :=
  [.dividend_yield, .net_buyback_yield, .revenue_growth, .revenue_gdp_wedge,
   .margin_change, .current_pe, .target_pe]

/-- The key list of an `AbsoluteReturnInputs` record. -/
def arKeys : List ARKey :=
  [.trading_alpha, .beta_market, .beta_size, .beta_value,
   .beta_profitability, .beta_investment, .beta_momentum]

/-- `DIRECT_FORECAST_KEYS` from lib/constants.ts (part_009). -/
def DIRECT_FORECAST_KEYS : List MacroKey :=
  [.inflation_forecast, .rgdp_growth, .tbill_forecast]

/-- `BUILDING_BLOCK_KEYS` from lib/constants.ts (part_009). -/
def BUILDING_BLOCK_KEYS : List MacroKey :=
  [.population_growth, .productivity_growth, .my_ratio_key,
   .current_headline_inflation, .long_term_inflation, .current_tbill,
   .country_factor]

/-- `DIRECT_FORECAST_KEYS.includes(key)`. -/
def isDirectKey (k : MacroKey) : Bool :=
  decide (k ∈ DIRECT_FORECAST_KEYS)

/-- `AllInputs` from lib/types.ts: the shape of a defaults table.
(The hardcoded table in constants.ts carries an extra `inflation_linked`
slot under `bonds` that is outside the `AllInputs` type and is never read
by any store operation; it is omitted.) -/
structure AllInputs where
  macroVals : MacroRegion → MacroKey → ℚ
  bonds : BondType → BondKey → Option ℚ
  equity : EquityRegion → EquityKey → ℚ
  absolute_return : ARKey → ℚ

/-- The macro table of `DEFAULT_INPUTS` in lib/constants.ts (part_009,
values in percentage points; `my_ratio` is a plain ratio). -/
def macroDefaults : MacroRegion → MacroKey → ℚ
  | .us, .inflation_forecast => 2.29
  | .us, .rgdp_growth => 1.20
  | .us, .tbill_forecast => 3.54
  | .us, .population_growth => 0.40
  | .us, .productivity_growth => 1.20
  | .us, .my_ratio_key => 2.1
  | .us, .current_headline_inflation => 2.50
  | .us, .long_term_inflation => 2.20
  | .us, .current_tbill => 3.67
  | .us, .country_factor => 0.00
  | .eurozone, .inflation_forecast => 2.06
  | .eurozone, .rgdp_growth => 0.51
  | .eurozone, .tbill_forecast => 2.27
  | .eurozone, .population_growth => 0.10
  | .eurozone, .productivity_growth => 1.00
  | .eurozone, .my_ratio_key => 2.3
  | .eurozone, .current_headline_inflation => 2.20
  | .eurozone, .long_term_inflation => 2.00
  | .eurozone, .current_tbill => 2.04
  | .eurozone, .country_factor => -0.20
  | .japan, .inflation_forecast => 1.65
  | .japan, .rgdp_growth => -0.46
  | .japan, .tbill_forecast => 0.71
  | .japan, .population_growth => -0.50
  | .japan, .productivity_growth => 0.80
  | .japan, .my_ratio_key => 2.5
  | .japan, .current_headline_inflation => 2.00
  | .japan, .long_term_inflation => 1.50
  | .japan, .current_tbill => 0.75
  | .japan, .country_factor => -0.50
  | .em, .inflation_forecast => 3.80
  | .em, .rgdp_growth => 3.46
  | .em, .tbill_forecast => 7.23
  | .em, .population_growth => 1.00
  | .em, .productivity_growth => 2.50
  | .em, .my_ratio_key => 1.5
  | .em, .current_headline_inflation => 4.50
  | .em, .long_term_inflation => 3.50
  | .em, .current_tbill => 6.00
  | .em, .country_factor => 0.50

/-- The bond table of `DEFAULT_INPUTS` in lib/constants.ts. -/
def defaultBonds : BondType → BondKey → Option ℚ
  | .global, .current_yield => some 3.50
  | .global, .duration => some 7.0
  | .global, .fair_term_premium => some 1.50
  | .global, .current_term_premium => some 1.00
  | .global, _ => none
  | .hy, .current_yield => some 7.50
  | .hy, .duration => some 4.0
  | .hy, .credit_spread => some 2.71
  | .hy, .fair_credit_spread => some 4.00
  | .hy, .default_rate => some 5.50
  | .hy, .recovery_rate => some 40.0
  | .hy, _ => none
  | .em, .current_yield => some 5.77
  | .em, .duration => some 5.5
  | .em, .fair_term_premium => some 2.00
  | .em, .current_term_premium => some 1.50
  | .em, .default_rate => some 2.80
  | .em, .recovery_rate => some 55.0
  | .em, _ => none

/-- The RA equity table of `DEFAULT_INPUTS` in lib/constants.ts. -/
def defaultEquity : EquityRegion → EquityKey → ℚ
  | .us, .dividend_yield => 1.13
  | .us, .current_caey => 2.48
  | .us, .fair_caey => 5.00
  | .us, .real_eps_growth => 1.80
  | .us, .regional_eps_growth => 1.60
  | .us, .reversion_speed => 100
  | .europe, .dividend_yield => 3.00
  | .europe, .current_caey => 5.50
  | .europe, .fair_caey => 5.50
  | .europe, .real_eps_growth => 1.20
  | .europe, .regional_eps_growth => 1.60
  | .europe, .reversion_speed => 100
  | .japan, .dividend_yield => 2.20
  | .japan, .current_caey => 5.50
  | .japan, .fair_caey => 5.00
  | .japan, .real_eps_growth => 0.80
  | .japan, .regional_eps_growth => 1.60
  | .japan, .reversion_speed => 100
  | .em, .dividend_yield => 3.00
  | .em, .current_caey => 6.50
  | .em, .fair_caey => 6.00
  | .em, .real_eps_growth => 3.00
  | .em, .regional_eps_growth => 2.80
  | .em, .reversion_speed => 100

/-- The absolute-return table of `DEFAULT_INPUTS` in lib/constants.ts. -/
def defaultAbsoluteReturn : ARKey → ℚ
  | .trading_alpha => 1.00
  | .beta_market => 0.30
  | .beta_size => 0.10
  | .beta_value => 0.05
  | .beta_profitability => 0.05
  | .beta_investment => 0.05
  | .beta_momentum => 0.10

/-- `DEFAULT_INPUTS` from lib/constants.ts. -/
def DEFAULT_INPUTS : AllInputs :=
  { macroVals := macroDefaults
    bonds := defaultBonds
    equity := defaultEquity
    absolute_return := defaultAbsoluteReturn }

/-- `DEFAULT_INPUTS_GK_EQUITY` from lib/constants.ts. -/
def DEFAULT_INPUTS_GK_EQUITY : EquityRegion → GKKey → ℚ
  | .us, .dividend_yield => 1.30
  | .us, .net_buyback_yield => 1.50
  | .us, .revenue_growth => 5.50
  | .us, .revenue_gdp_wedge => 2.00
  | .us, .margin_change => -0.50
  | .us, .current_pe => 22.0
  | .us, .target_pe => 20.0
  | .europe, .dividend_yield => 3.00
  | .europe, .net_buyback_yield => 0.50
  | .europe, .revenue_growth => 3.40
  | .europe, .revenue_gdp_wedge => 0.50
  | .europe, .margin_change => 0.00
  | .europe, .current_pe => 14.0
  | .europe, .target_pe => 14.0
  | .japan, .dividend_yield => 2.20
  | .japan, .net_buyback_yield => 0.80
  | .japan, .revenue_growth => 2.50
  | .japan, .revenue_gdp_wedge => 0.50
  | .japan, .margin_change => 0.30
  | .japan, .current_pe => 15.0
  | .japan, .target_pe => 14.5
  | .em, .dividend_yield => 3.00
  | .em, .net_buyback_yield => -1.50
  | .em, .revenue_growth => 7.30
  | .em, .revenue_gdp_wedge => 0.50
  | .em, .margin_change => 0.00
  | .em, .current_pe => 12.0
  | .em, .target_pe => 12.0

/-- The sparse `Overrides` payload of lib/types.ts.  In the source each
slot is an optional record; a record is modelled as a partial function on
its key type.  The source's optional outer `macro` object is present
exactly when at least one region slot is present, so the outer option is
dropped: the payload's region slot is consulted directly. -/
@[ext]
structure Overrides where
  macroOv : MacroRegion → Option (MacroKey → Option ℚ)
  bondsOv : BondType → Option (BondKey → Option ℚ)
  equityOv : EquityRegion → Option (EqOvKey → Option ℚ)
  absolute_return : Option (ARKey → Option ℚ)

/-- The `{}` payload. -/
def emptyOverrides : Overrides :=
  { macroOv := fun _ => none
    bondsOv := fun _ => none
    equityOv := fun _ => none
    absolute_return := none }

/-- The state of `useInputStore` (stores/inputStore.ts variant embedded at
src/web/stores/authStore.ts lines 156-581). -/
structure InputState where
  macroVals : MacroRegion → MacroKey → ℚ
  bonds : BondType → BondKey → Option ℚ
  equity : EquityRegion → EquityKey → ℚ
  equityGK : EquityRegion → GKKey → ℚ
  absoluteReturn : ARKey → ℚ
  baseCurrency : BaseCurrency
  equityModelType : EquityModelType
  fetchedDefaults : Option AllInputs
  advancedMode : Bool
  dirtyMacroFields : MacroRegion → MacroKey → Bool

/-- The store's initial state (hardcoded defaults, base currency 'usd',
equity model 'gk', no fetched defaults, empty dirty set). -/
def initialState : InputState :=
  { macroVals := DEFAULT_INPUTS.macroVals
    bonds := DEFAULT_INPUTS.bonds
    equity := DEFAULT_INPUTS.equity
    equityGK := DEFAULT_INPUTS_GK_EQUITY
    absoluteReturn := DEFAULT_INPUTS.absolute_return
    baseCurrency := .usd
    equityModelType := .gk
    fetchedDefaults := none
    advancedMode := false
    dirtyMacroFields := fun _ _ => false }

/-- `isDifferent(value, defaultValue)` with the default tolerance 0.001
(the source never passes an explicit tolerance). -/
def isDifferent (value defaultValue : ℚ) : Bool :=
  decide (|value - defaultValue| > 1/1000)

/-- `getActiveDefaults`: the fetched table if present, else the hardcoded
`DEFAULT_INPUTS`. -/
def getActiveDefaults (s : InputState) : AllInputs :=
  s.fetchedDefaults.getD DEFAULT_INPUTS

/-- `setMacroValue(region, key, value)`: stores the value, and marks the
field dirty when the key is a direct-forecast key. -/
def setMacroValue (s : InputState) (region : MacroRegion) (key : MacroKey)
    (value : ℚ) : InputState :=
  { s with
    macroVals := fun r k =>
      if r = region ∧ k = key then value else s.macroVals r k
    dirtyMacroFields :=
      if isDirectKey key then
        fun r k => if r = region ∧ k = key then true else s.dirtyMacroFields r k
      else s.dirtyMacroFields }

/-- Whether the entry of `computedValues` at key `k` qualifies for a sync
write: the field is not dirty, the entry is present (a number), and the
stored value differs from it by more than 0.001. -/
def syncQualifies (s : InputState) (region : MacroRegion)
    (cv : MacroKey → Option ℚ) (k : MacroKey) : Bool :=
  !(s.dirtyMacroFields region k) &&
    (match cv k with
     | some v => decide (|s.macroVals region k - v| > 1/1000)
     | none => false)

/-- `syncMacroComputed(region, computedValues)`: overwrites every
qualifying entry of the region's macro record and leaves the state object
untouched when no entry qualifies.  `computedValues` keys that are not
`MacroInputs` fields are no-ops in the source (the comparison against the
absent stored value is a NaN comparison, hence false), so the payload is
modelled on `MacroKey` directly. -/
def syncMacroComputed (s : InputState) (region : MacroRegion)
    (cv : MacroKey → Option ℚ) : InputState :=
  if macroKeys.any (syncQualifies s region cv) then
    { s with macroVals := fun r =>
        if r = region then
          fun k =>
            if syncQualifies s region cv k then
              match cv k with
              | some v => v
              | none => s.macroVals region k
            else s.macroVals region k
        else s.macroVals r }
  else s

/-- `isMacroDirty(region, key)`. -/
def isMacroDirty (s : InputState) (region : MacroRegion) (key : MacroKey) : Bool :=
  s.dirtyMacroFields region key

/-- `setBondValue(type, key, value)`. -/
def setBondValue (s : InputState) (t : BondType) (key : BondKey) (value : ℚ) :
    InputState :=
  { s with bonds := fun t0 k =>
      if t0 = t ∧ k = key then some value else s.bonds t0 k }

/-- `setEquityValue(region, key, value)` (RA record). -/
def setEquityValue (s : InputState) (region : EquityRegion) (key : EquityKey)
    (value : ℚ) : InputState :=
  { s with equity := fun r k =>
      if r = region ∧ k = key then value else s.equity r k }

/-- `setEquityGKValue(region, key, value)`. -/
def setEquityGKValue (s : InputState) (region : EquityRegion) (key : GKKey)
    (value : ℚ) : InputState :=
  { s with equityGK := fun r k =>
      if r = region ∧ k = key then value else s.equityGK r k }

/-- `setEquityModelType(type)`. -/
def setEquityModelType (s : InputState) (t : EquityModelType) : InputState :=
  { s with equityModelType := t }

/-- `setAbsoluteReturnValue(key, value)`. -/
def setAbsoluteReturnValue (s : InputState) (key : ARKey) (value : ℚ) :
    InputState :=
  { s with absoluteReturn := fun k => if k = key then value else s.absoluteReturn k }

/-- `setBaseCurrency(currency)`. -/
def setBaseCurrency (s : InputState) (c : BaseCurrency) : InputState :=
  { s with baseCurrency := c }

/-- `setAdvancedMode(enabled)`. -/
def setAdvancedMode (s : InputState) (b : Bool) : InputState :=
  { s with advancedMode := b }

/-- `resetToDefaults()`: restores the active default table, restores the
hardcoded GK equity table, and clears the dirty set.  (`fetchedDefaults`,
`baseCurrency`, `equityModelType` and `advancedMode` are not touched.) -/
def resetToDefaults (s : InputState) : InputState :=
  { s with
    macroVals := (getActiveDefaults s).macroVals
    bonds := (getActiveDefaults s).bonds
    equity := (getActiveDefaults s).equity
    equityGK := DEFAULT_INPUTS_GK_EQUITY
    absoluteReturn := (getActiveDefaults s).absolute_return
    dirtyMacroFields := fun _ _ => false }

/-- The success path of `fetchDefaultsFromAPI()`: installs the fetched
table, replaces the current values with it and clears the dirty set.
(The `equityGK` record is not replaced in the source.) -/
def fetchDefaultsSuccess (s : InputState) (defaults : AllInputs) : InputState :=
  { s with
    fetchedDefaults := some defaults
    macroVals := defaults.macroVals
    bonds := defaults.bonds
    equity := defaults.equity
    absoluteReturn := defaults.absolute_return
    dirtyMacroFields := fun _ _ => false }

/-- `loadScenario(overrides)`: merges the payload onto the current values
and marks every direct-forecast key present in a macro slot dirty.  The
`equityGK` record is not touched by the source.  A payload key of an
`equity_*` slot that is not an RA field name attaches to the record but is
never read back by any operation, so only the RA field names are merged. -/
def loadScenarioOp (s : InputState) (o : Overrides) : InputState :=
  { s with
    macroVals := fun r =>
      match o.macroOv r with
      | some values => fun k =>
          match values k with
          | some v => v
          | none => s.macroVals r k
      | none => s.macroVals r
    bonds := fun t =>
      match o.bondsOv t with
      | some ov => fun k =>
          match ov k with
          | some v => some v
          | none => s.bonds t k
      | none => s.bonds t
    equity := fun r =>
      match o.equityOv r with
      | some ov => fun k =>
          match ov (raOvKey k) with
          | some v => v
          | none => s.equity r k
      | none => s.equity r
    absoluteReturn := fun k =>
      match o.absolute_return with
      | some ov =>
          match ov k with
          | some v => v
          | none => s.absoluteReturn k
      | none => s.absoluteReturn k
    dirtyMacroFields := fun r k =>
      match o.macroOv r with
      | some values => s.dirtyMacroFields r k || ((values k).isSome && isDirectKey k)
      | none => s.dirtyMacroFields r k }

/-- Unit conversion applied to a macro field included in the payload:
`my_ratio` is sent as-is, every other macro field is divided by 100. -/
def macroOvValue (k : MacroKey) (v : ℚ) : ℚ :=
  if k = .my_ratio_key then v else v / 100

/-- The macro slot `getOverrides` builds for one region: a direct-forecast
field is included iff its dirty flag is set; a building-block field is
included iff it differs from the active default by more than the
tolerance. -/
def macroRegionOverrides (s : InputState) (defaults : AllInputs)
    (region : MacroRegion) : MacroKey → Option ℚ := fun k =>
  if isDirectKey k then
    if s.dirtyMacroFields region k then
      some (macroOvValue k (s.macroVals region k))
    else none
  else
    if isDifferent (s.macroVals region k) (defaults.macroVals region k) then
      some (macroOvValue k (s.macroVals region k))
    else none

/-- The bond slot `getOverrides` builds for one bond type: a field is
skipped when its stored or default value is absent, included when it
differs from the default by more than the tolerance; `duration` is sent
as-is, other fields divided by 100. -/
def bondOverridesFor (s : InputState) (defaults : AllInputs) (t : BondType) :
    BondKey → Option ℚ := fun k =>
  match s.bonds t k with
  | none => none
  | some v =>
    match defaults.bonds t k with
    | none => none
    | some d =>
      if isDifferent v d then
        some (if k = .duration then v else v / 100)
      else none

/-- The GK keys sent as plain ratios, without the /100 conversion. -/
def gkRatioKeys : List GKKey := [.current_pe, .target_pe]

/-- The GK equity slot `getOverrides` builds for one region, compared
against the hardcoded `DEFAULT_INPUTS_GK_EQUITY` table. -/
def gkOverridesFor (s : InputState) (r : EquityRegion) : GKKey → Option ℚ := fun k =>
  if isDifferent (s.equityGK r k) (DEFAULT_INPUTS_GK_EQUITY r k) then
    some (if k ∈ gkRatioKeys then s.equityGK r k else s.equityGK r k / 100)
  else none

/-- The RA equity slot `getOverrides` builds for one region, compared
against the active defaults. -/
def raOverridesFor (s : InputState) (defaults : AllInputs) (r : EquityRegion) :
    EquityKey → Option ℚ := fun k =>
  if isDifferent (s.equity r k) (defaults.equity r k) then
    some (s.equity r k / 100)
  else none

/-- The absolute-return slot `getOverrides` builds: `trading_alpha` is
divided by 100, the factor betas are sent as-is. -/
def arOverridesFor (s : InputState) (defaults : AllInputs) : ARKey → Option ℚ := fun k =>
  if isDifferent (s.absoluteReturn k) (defaults.absolute_return k) then
    some (if k = .trading_alpha then s.absoluteReturn k / 100 else s.absoluteReturn k)
  else none

/-- A GK slot rendered under the payload's union field names. -/
def gkToOv (f : GKKey → Option ℚ) : EqOvKey → Option ℚ
  | .dividend_yield => f .dividend_yield
  | .net_buyback_yield => f .net_buyback_yield
  | .revenue_growth => f .revenue_growth
  | .revenue_gdp_wedge => f .revenue_gdp_wedge
  | .margin_change => f .margin_change
  | .current_pe => f .current_pe
  | .target_pe => f .target_pe
  | _ => none

/-- An RA slot rendered under the payload's union field names. -/
def raToOv (f : EquityKey → Option ℚ) : EqOvKey → Option ℚ
  | .dividend_yield => f .dividend_yield
  | .current_caey => f .current_caey
  | .fair_caey => f .fair_caey
  | .real_eps_growth => f .real_eps_growth
  | .regional_eps_growth => f .regional_eps_growth
  | .reversion_speed => f .reversion_speed
  | _ => none

/-- `getOverrides()`: the minimal payload.  A slot is attached exactly
when its record is nonempty (`Object.keys(...).length > 0`). -/
def getOverrides (s : InputState) : Overrides :=
  { macroOv := fun region =>
      if macroKeys.any
          (fun k => (macroRegionOverrides s (getActiveDefaults s) region k).isSome) then
        some (macroRegionOverrides s (getActiveDefaults s) region)
      else none
    bondsOv := fun t =>
      if bondKeys.any
          (fun k => (bondOverridesFor s (getActiveDefaults s) t k).isSome) then
        some (bondOverridesFor s (getActiveDefaults s) t)
      else none
    equityOv := fun r =>
      match s.equityModelType with
      | .gk =>
        if gkKeys.any (fun k => (gkOverridesFor s r k).isSome) then
          some (gkToOv (gkOverridesFor s r))
        else none
      | .ra =>
        if equityKeys.any
            (fun k => (raOverridesFor s (getActiveDefaults s) r k).isSome) then
          some (raToOv (raOverridesFor s (getActiveDefaults s) r))
        else none
    absolute_return :=
      if arKeys.any (fun k => (arOverridesFor s (getActiveDefaults s) k).isSome) then
        some (arOverridesFor s (getActiveDefaults s))
      else none }

/-- Whether the payload's macro section carries field `k` for region `r`. -/
def overridesMacroContains (o : Overrides) (r : MacroRegion) (k : MacroKey) : Bool :=
  match o.macroOv r with
  | some m => (m k).isSome
  | none => false

/-- The store's mutating operations, as an inductive command type (used to
state invariants over every operation the store exposes). -/
inductive StoreOp where
  | setMacro (r : MacroRegion) (k : MacroKey) (v : ℚ)
  | syncMacro (r : MacroRegion) (cv : MacroKey → Option ℚ)
  | setBond (t : BondType) (k : BondKey) (v : ℚ)
  | setEquity (r : EquityRegion) (k : EquityKey) (v : ℚ)
  | setEquityGK (r : EquityRegion) (k : GKKey) (v : ℚ)
  | setModelType (t : EquityModelType)
  | setAR (k : ARKey) (v : ℚ)
  | setCurrency (c : BaseCurrency)
  | setAdvanced (b : Bool)
  | reset
  | load (o : Overrides)
  | fetch (d : AllInputs)

/-- Interpretation of a store operation. -/
def applyOp : StoreOp → InputState → InputState
  | .setMacro r k v, s => setMacroValue s r k v
  | .syncMacro r cv, s => syncMacroComputed s r cv
  | .setBond t k v, s => setBondValue s t k v
  | .setEquity r k v, s => setEquityValue s r k v
  | .setEquityGK r k v, s => setEquityGKValue s r k v
  | .setModelType t, s => setEquityModelType s t
  | .setAR k v, s => setAbsoluteReturnValue s k v
  | .setCurrency c, s => setBaseCurrency s c
  | .setAdvanced b, s => setAdvancedMode s b
  | .reset, s => resetToDefaults s
  | .load o, s => loadScenarioOp s o
  | .fetch d, s => fetchDefaultsSuccess s d

/-- The dirty set only ever holds direct-forecast keys. -/
def dirtyOnlyDirect (s : InputState) : Prop :=
  ∀ r k, s.dirtyMacroFields r k = true → isDirectKey k = true

/-- The fields of a `MacroPreviewResponse` read by the `conflicts` value of
useMacroPreview.ts (the `intermediate` block is not consulted there). -/
structure MacroPreview where
  rgdp_growth : ℚ
  inflation : ℚ
  tbill : ℚ

/-- `hasChanges` of useMacroPreview.ts: some building block differs from
the hardcoded `DEFAULT_INPUTS` table by more than 0.001. -/
def hasChangesOfState (s : InputState) (region : MacroRegion) : Bool :=
  BUILDING_BLOCK_KEYS.any fun k =>
    decide (|s.macroVals region k - DEFAULT_INPUTS.macroVals region k| > 1/1000)

/-- The `conflicts` record of useMacroPreview.ts, as a function of the
store state, the region, and the latest computed preview (`computed` is
`null` until a preview has arrived).  The record's three flags are
rendered as a function on `MacroKey` that is false off the three
direct-forecast keys. -/
def conflictsOfState (s : InputState) (region : MacroRegion)
    (computed : Option MacroPreview) : MacroKey → Bool :=
  match computed with
  | none => fun _ => false
  | some c =>
    if hasChangesOfState s region then
      fun k =>
        match k with
        | .rgdp_growth =>
            decide (|s.macroVals region .rgdp_growth / 100 -
                DEFAULT_INPUTS.macroVals region .rgdp_growth / 100| > 1/10000) &&
              decide (|c.rgdp_growth - s.macroVals region .rgdp_growth / 100| > 1/10000)
        | .inflation_forecast =>
            decide (|s.macroVals region .inflation_forecast / 100 -
                DEFAULT_INPUTS.macroVals region .inflation_forecast / 100| > 1/10000) &&
              decide (|c.inflation - s.macroVals region .inflation_forecast / 100| > 1/10000)
        | .tbill_forecast =>
            decide (|s.macroVals region .tbill_forecast / 100 -
                DEFAULT_INPUTS.macroVals region .tbill_forecast / 100| > 1/10000) &&
              decide (|c.tbill - s.macroVals region .tbill_forecast / 100| > 1/10000)
        | _ => false
    else fun _ => false

/-- The preview's value for a direct-forecast key (in decimal units). -/
def previewValue (c : MacroPreview) : MacroKey → Option ℚ
  | .rgdp_growth => some c.rgdp_growth
  | .inflation_forecast => some c.inflation
  | .tbill_forecast => some c.tbill
  | _ => none

/-- The state of useCalculation.ts, parametric in the response type (the
response's internal structure is irrelevant to the hook's control flow). -/
structure CalcState (α : Type) where
  results : Option α
  baseResults : Option α
  isLoading : Bool
  error : Option String

/-- One `calculate()` pass of useCalculation.ts, as a function of the
prior hook state and the joint outcome of the two parallel
`calculateFull` calls (`Promise.all` resolves with both responses or
rejects with the first error; the response setters run only after both
resolve).  On success both result slots are replaced and the error
cleared; on failure only the error state is written. -/
def calculate {α : Type} (s : CalcState α) (outcome : Except String (α × α)) :
    CalcState α :=
  match outcome with
  | .ok p =>
    { results := some p.1, baseResults := some p.2, isLoading := false, error := none }
  | .error e => { s with error := some e, isLoading := false }

/-- A JavaScript number: finite (modelled as a rational) or one of the
non-finite values NaN, +Infinity, -Infinity. -/
inductive NumV where
  | fin (q : ℚ)
  | nan
  | posInf
  | negInf
deriving DecidableEq

/-- `isNaN(v)` of JavaScript on a number. -/
def NumV.isNaNV : NumV → Bool
  | .nan => true
  | _ => false

/-- `Number.isFinite(v)` of JavaScript on a number. -/
def NumV.isFiniteV : NumV → Bool
  | .fin _ => true
  | _ => false

/-- The macro part of the store state at JavaScript-number precision,
for examining what the setter does with non-finite inputs. -/
structure MacroStateNum where
  macroVals : MacroRegion → MacroKey → NumV
  dirtyMacroFields : MacroRegion → MacroKey → Bool

/-- `setMacroValue` at JavaScript-number precision: the source stores the
incoming value unconditionally, with no finiteness check. -/
def setMacroValueNum (s : MacroStateNum) (region : MacroRegion) (key : MacroKey)
    (value : NumV) : MacroStateNum :=
  { macroVals := fun r k =>
      if r = region ∧ k = key then value else s.macroVals r k
    dirtyMacroFields :=
      if isDirectKey key then
        fun r k => if r = region ∧ k = key then true else s.dirtyMacroFields r k
      else s.dirtyMacroFields }

/-- `handleChange` of MacroInputPanel.tsx, given the already-parsed
`parseFloat` result: the write is skipped only when the parse produced
NaN.  (`parseFloat('Infinity')` is `Infinity`, which is not NaN and is
forwarded to the setter.) -/
def handleChangeNum (s : MacroStateNum) (region : MacroRegion) (key : MacroKey)
    (numValue : NumV) : MacroStateNum :=
  if !numValue.isNaNV then setMacroValueNum s region key numValue else s

/-- The initial macro table at JavaScript-number precision (all defaults
finite, dirty set empty). -/
def initialMacroNum : MacroStateNum :=
  { macroVals := fun r k => .fin (DEFAULT_INPUTS.macroVals r k)
    dirtyMacroFields := fun _ _ => false }

/-- `valuationChange` of the Grinold-Kroner equity panel (part_001 lines
177-189): guarded tenth-root P/E reversion, in percentage points. -/
noncomputable def valuationChange (current_pe target_pe : ℝ) : ℝ :=
  if current_pe > 0 ∧ target_pe > 0 then
    ((target_pe / current_pe) ^ ((1 : ℝ) / 10) - 1) * 100
  else 0

/-- A computed-values payload carrying a single entry. -/
def cvSingle (k0 : MacroKey) (v : ℚ) : MacroKey → Option ℚ :=
  fun k => if k = k0 then some v else none

/-- The empty computed-values payload. -/
def cvNone : MacroKey → Option ℚ := fun _ => none

/-- A state whose `us.tbill_forecast` was explicitly set to the default
value 3.54: dirty, yet numerically equal to the active default. -/
def dirtyTbillState : InputState :=
  setMacroValue initialState .us .tbill_forecast 3.54

/-- A payload overriding only `us.inflation_forecast` (decimal units). -/
def payloadUsInfl : Overrides :=
  { macroOv := fun r =>
      if r = .us then some (cvSingle .inflation_forecast (5 / 100)) else none
    bondsOv := fun _ => none
    equityOv := fun _ => none
    absolute_return := none }

/-- A state whose `us.inflation_forecast` is 3.00 without being dirty and
whose building block `us.long_term_inflation` is 3.00 (so the preview is
live).  Such a state is reachable: `setMacroValue` on the building block
sets no dirty flag, and `syncMacroComputed` writes the direct field
without marking it dirty. -/
def stateNonDirtyConflict : InputState :=
  { initialState with
    macroVals := fun r k =>
      match r, k with
      | .us, .inflation_forecast => 3
      | .us, .long_term_inflation => 3
      | r, k => initialState.macroVals r k }

/-- A live preview for `stateNonDirtyConflict` (decimal units): inflation
computed as 0.3 x 2.5% + 0.7 x 3.0% = 2.85%. -/
def previewNonDirty : MacroPreview :=
  { rgdp_growth := 12 / 1000, inflation := 285 / 10000, tbill := 354 / 10000 }

/-! ## Helper lemmas -/

theorem macroKeys_complete (k : MacroKey) : k ∈ macroKeys := by
  cases k <;> simp [macroKeys]

theorem isDifferent_self (v : ℚ) : isDifferent v v = false := by
  simp [isDifferent]

/-- The payload's macro section carries a field exactly when the
per-region record built by `getOverrides` carries it (the region slot is
attached exactly when the record is nonempty). -/
theorem overridesMacroContains_getOverrides (s : InputState) (r : MacroRegion)
    (k : MacroKey) :
    overridesMacroContains (getOverrides s) r k =
      (macroRegionOverrides s (getActiveDefaults s) r k).isSome := by
  have hmac : (getOverrides s).macroOv r =
      if macroKeys.any
          (fun k => (macroRegionOverrides s (getActiveDefaults s) r k).isSome) then
        some (macroRegionOverrides s (getActiveDefaults s) r)
      else none := rfl
  unfold overridesMacroContains
  rw [hmac]
  cases hb : macroKeys.any
      (fun k => (macroRegionOverrides s (getActiveDefaults s) r k).isSome) with
  | true => simp
  | false =>
    have hk := List.any_eq_false.mp hb k (macroKeys_complete k)
    rw [Option.not_isSome_iff_eq_none] at hk
    simp [hk]

/-- A direct-forecast field sits in the per-region record exactly when it
is dirty. -/
theorem macroRegionOverrides_isSome_direct (s : InputState) (defaults : AllInputs)
    (r : MacroRegion) (k : MacroKey) (h : isDirectKey k = true) :
    (macroRegionOverrides s defaults r k).isSome = s.dirtyMacroFields r k := by
  cases hd : s.dirtyMacroFields r k <;> simp [macroRegionOverrides, h, hd]

/-- A building-block field sits in the per-region record exactly when it
differs from the active default by more than the tolerance. -/
theorem macroRegionOverrides_isSome_building (s : InputState) (defaults : AllInputs)
    (r : MacroRegion) (k : MacroKey) (h : isDirectKey k = false) :
    (macroRegionOverrides s defaults r k).isSome =
      isDifferent (s.macroVals r k) (defaults.macroVals r k) := by
  cases hd : isDifferent (s.macroVals r k) (defaults.macroVals r k) <;>
    simp [macroRegionOverrides, h, hd]

/-! ## C1: sticky override -/

/-- C1: after `setMacroValue(r, f, V)` has marked the direct-forecast
field (r, f) dirty, a subsequent `syncMacroComputed(r, {f: W})` leaves the
stored value at `V` for every computed value `W`. -/
theorem sticky_override_sync (s : InputState) (r : MacroRegion) (f : MacroKey)
    (hf : isDirectKey f = true) (V W : ℚ) :
    (syncMacroComputed (setMacroValue s r f V) r (cvSingle f W)).macroVals r f = V := by
  have hdirty : (setMacroValue s r f V).dirtyMacroFields r f = true := by
    simp [setMacroValue, hf]
  have hval : (setMacroValue s r f V).macroVals r f = V := by
    simp [setMacroValue]
  have hq : syncQualifies (setMacroValue s r f V) r (cvSingle f W) f = false := by
    simp [syncQualifies, hdirty]
  unfold syncMacroComputed
  split
  · simp [hq, hval]
  · exact hval

/-- Closed instance of C1: set `us.inflation_forecast` to 5, then sync the
computed value 99 for the same field; the stored value stays 5. -/
theorem sticky_override_sync_witness :
    (syncMacroComputed (setMacroValue initialState .us .inflation_forecast 5) .us
        (cvSingle .inflation_forecast 99)).macroVals .us .inflation_forecast = 5 :=
  sticky_override_sync initialState .us .inflation_forecast (by decide) 5 99

/-! ## C8: failed compute pass -/

/-- C8: when the compute pass fails, the previously stored result sets are
untouched and the failure is surfaced only through the error slot. -/
theorem calculate_failure_preserves_results {α : Type} (s : CalcState α) (e : String) :
    (calculate s (.error e)).results = s.results ∧
    (calculate s (.error e)).baseResults = s.baseResults ∧
    (calculate s (.error e)).error = some e ∧
    (calculate s (.error e)).isLoading = false :=
  ⟨rfl, rfl, rfl, rfl⟩

/-! ## C2: override payload membership -/

/-- C2: `getOverrides` includes a direct-forecast field iff its dirty flag
is set (regardless of its value), and includes a building-block field iff
the stored value differs from the active default by more than 0.001. -/
theorem getOverrides_inclusion (s : InputState) (r : MacroRegion) (k : MacroKey) :
    (isDirectKey k = true →
      (overridesMacroContains (getOverrides s) r k = true ↔
        s.dirtyMacroFields r k = true)) ∧
    (isDirectKey k = false →
      (overridesMacroContains (getOverrides s) r k = true ↔
        |s.macroVals r k - (getActiveDefaults s).macroVals r k| > 1/1000)) := by
  constructor
  · intro h
    rw [overridesMacroContains_getOverrides,
      macroRegionOverrides_isSome_direct s (getActiveDefaults s) r k h]
  · intro h
    rw [overridesMacroContains_getOverrides,
      macroRegionOverrides_isSome_building s (getActiveDefaults s) r k h]
    simp [isDifferent]

/-- Closed instance of C2: `us.tbill_forecast` explicitly set to the
default value 3.54 is dirty and is included in the payload even though its
value equals the active default. -/
theorem getOverrides_inclusion_witness :
    overridesMacroContains (getOverrides dirtyTbillState) .us .tbill_forecast = true :=
  ((getOverrides_inclusion dirtyTbillState .us .tbill_forecast).1 (by decide)).mpr
    (by decide)

/-! ## C3: reset round-trip -/

/-- C3: after `resetToDefaults()`, `getOverrides()` is the empty payload,
for every prior state. -/
theorem reset_then_getOverrides_empty (s : InputState) :
    getOverrides (resetToDefaults s) = emptyOverrides := by
  have hro : ∀ region k,
      macroRegionOverrides (resetToDefaults s)
        (getActiveDefaults (resetToDefaults s)) region k = none := by
    intro region k
    unfold macroRegionOverrides
    cases hdk : isDirectKey k with
    | false =>
      have hd : isDifferent ((resetToDefaults s).macroVals region k)
          ((getActiveDefaults (resetToDefaults s)).macroVals region k) = false :=
        isDifferent_self _
      simp [hdk, hd]
    | true =>
      have hdirty : (resetToDefaults s).dirtyMacroFields region k = false := rfl
      simp [hdk, hdirty]
  have hbo : ∀ t k,
      bondOverridesFor (resetToDefaults s)
        (getActiveDefaults (resetToDefaults s)) t k = none := by
    intro t k
    unfold bondOverridesFor
    have hsb : (resetToDefaults s).bonds t k =
        (getActiveDefaults (resetToDefaults s)).bonds t k := rfl
    rw [hsb]
    cases hb : (getActiveDefaults (resetToDefaults s)).bonds t k with
    | none => rfl
    | some v => simp [isDifferent_self]
  have hgo : ∀ r k, gkOverridesFor (resetToDefaults s) r k = none := by
    intro r k
    unfold gkOverridesFor
    have hg : (resetToDefaults s).equityGK r k = DEFAULT_INPUTS_GK_EQUITY r k := rfl
    rw [hg]
    simp [isDifferent_self]
  have hreo : ∀ r k,
      raOverridesFor (resetToDefaults s)
        (getActiveDefaults (resetToDefaults s)) r k = none := by
    intro r k
    unfold raOverridesFor
    have he : (resetToDefaults s).equity r k =
        (getActiveDefaults (resetToDefaults s)).equity r k := rfl
    rw [he]
    simp [isDifferent_self]
  have hao : ∀ k,
      arOverridesFor (resetToDefaults s)
        (getActiveDefaults (resetToDefaults s)) k = none := by
    intro k
    unfold arOverridesFor
    have ha : (resetToDefaults s).absoluteReturn k =
        (getActiveDefaults (resetToDefaults s)).absolute_return k := rfl
    rw [ha]
    simp [isDifferent_self]
  refine Overrides.ext ?_ ?_ ?_ ?_
  · funext region
    show (if macroKeys.any (fun k =>
        (macroRegionOverrides (resetToDefaults s)
          (getActiveDefaults (resetToDefaults s)) region k).isSome) then
        some (macroRegionOverrides (resetToDefaults s)
          (getActiveDefaults (resetToDefaults s)) region)
      else none) = none
    have hany : macroKeys.any (fun k =>
        (macroRegionOverrides (resetToDefaults s)
          (getActiveDefaults (resetToDefaults s)) region k).isSome) = false :=
      List.any_eq_false.mpr (fun x _ => by rw [hro region x]; simp)
    simp [hany]
  · funext t
    show (if bondKeys.any (fun k =>
        (bondOverridesFor (resetToDefaults s)
          (getActiveDefaults (resetToDefaults s)) t k).isSome) then
        some (bondOverridesFor (resetToDefaults s)
          (getActiveDefaults (resetToDefaults s)) t)
      else none) = none
    have hany : bondKeys.any (fun k =>
        (bondOverridesFor (resetToDefaults s)
          (getActiveDefaults (resetToDefaults s)) t k).isSome) = false :=
      List.any_eq_false.mpr (fun x _ => by rw [hbo t x]; simp)
    simp [hany]
  · funext r
    show (match (resetToDefaults s).equityModelType with
      | .gk =>
        if gkKeys.any (fun k => (gkOverridesFor (resetToDefaults s) r k).isSome) then
          some (gkToOv (gkOverridesFor (resetToDefaults s) r))
        else none
      | .ra =>
        if equityKeys.any (fun k =>
            (raOverridesFor (resetToDefaults s)
              (getActiveDefaults (resetToDefaults s)) r k).isSome) then
          some (raToOv (raOverridesFor (resetToDefaults s)
            (getActiveDefaults (resetToDefaults s)) r))
        else none) = none
    cases hm : (resetToDefaults s).equityModelType with
    | gk =>
      have hany : gkKeys.any
          (fun k => (gkOverridesFor (resetToDefaults s) r k).isSome) = false :=
        List.any_eq_false.mpr (fun x _ => by rw [hgo r x]; simp)
      simp [hany]
    | ra =>
      have hany : equityKeys.any (fun k =>
          (raOverridesFor (resetToDefaults s)
            (getActiveDefaults (resetToDefaults s)) r k).isSome) = false :=
        List.any_eq_false.mpr (fun x _ => by rw [hreo r x]; simp)
      simp [hany]
  · show (if arKeys.any (fun k =>
        (arOverridesFor (resetToDefaults s)
          (getActiveDefaults (resetToDefaults s)) k).isSome) then
        some (arOverridesFor (resetToDefaults s)
          (getActiveDefaults (resetToDefaults s)))
      else none) = none
    have hany : arKeys.any (fun k =>
        (arOverridesFor (resetToDefaults s)
          (getActiveDefaults (resetToDefaults s)) k).isSome) = false :=
      List.any_eq_false.mpr (fun x _ => by rw [hao x]; simp)
    simp [hany]

/-! ## C4: load-then-export -/

/-- C4: every direct-forecast field present in a loaded payload's macro
section is marked dirty by `loadScenario` and therefore shows up in the
next `getOverrides()` payload as a user override. -/
theorem load_then_export_contains (s : InputState) (o : Overrides) (r : MacroRegion)
    (f : MacroKey) (m : MacroKey → Option ℚ) (v : ℚ)
    (hf : isDirectKey f = true) (hm : o.macroOv r = some m) (hv : m f = some v) :
    overridesMacroContains (getOverrides (loadScenarioOp s o)) r f = true := by
  have hd : (loadScenarioOp s o).dirtyMacroFields r f = true := by
    show (match o.macroOv r with
      | some values => s.dirtyMacroFields r f || ((values f).isSome && isDirectKey f)
      | none => s.dirtyMacroFields r f) = true
    rw [hm]
    simp [hv, hf]
  rw [overridesMacroContains_getOverrides,
    macroRegionOverrides_isSome_direct _ _ _ _ hf]
  exact hd

/-- Closed instance of C4: loading a payload that overrides only
`us.inflation_forecast` yields a `getOverrides()` payload containing that
field. -/
theorem load_then_export_contains_witness :
    overridesMacroContains (getOverrides (loadScenarioOp initialState payloadUsInfl))
      .us .inflation_forecast = true :=
  load_then_export_contains initialState payloadUsInfl .us .inflation_forecast
    (cvSingle .inflation_forecast (5/100)) (5/100) (by decide) rfl rfl

/-! ## C9: syncMacroComputed frame -/

theorem syncQualifies_eq_true_iff (s : InputState) (r : MacroRegion)
    (cv : MacroKey → Option ℚ) (k : MacroKey) :
    syncQualifies s r cv k = true ↔
      s.dirtyMacroFields r k = false ∧
        ∃ v, cv k = some v ∧ |s.macroVals r k - v| > 1/1000 := by
  unfold syncQualifies
  cases hcv : cv k <;> cases hd : s.dirtyMacroFields r k <;> simp [hd, hcv]

theorem syncMacroComputed_dirty (s : InputState) (r : MacroRegion)
    (cv : MacroKey → Option ℚ) :
    (syncMacroComputed s r cv).dirtyMacroFields = s.dirtyMacroFields := by
  unfold syncMacroComputed
  split <;> rfl

/-- C9: `syncMacroComputed(r, cv)` changes at most the entries of the
region's macro record that are non-dirty, present in `cv`, and more than
0.001 away from the stored value; every other piece of the state is
untouched, and when no entry qualifies the input state itself is
returned. -/
theorem syncMacroComputed_frame (s : InputState) (r : MacroRegion)
    (cv : MacroKey → Option ℚ) :
    (∀ k, (syncMacroComputed s r cv).macroVals r k ≠ s.macroVals r k →
      s.dirtyMacroFields r k = false ∧
        ∃ v, cv k = some v ∧ |s.macroVals r k - v| > 1/1000 ∧
          (syncMacroComputed s r cv).macroVals r k = v) ∧
    (∀ r2, r2 ≠ r → (syncMacroComputed s r cv).macroVals r2 = s.macroVals r2) ∧
    (syncMacroComputed s r cv).dirtyMacroFields = s.dirtyMacroFields ∧
    (syncMacroComputed s r cv).bonds = s.bonds ∧
    (syncMacroComputed s r cv).equity = s.equity ∧
    (syncMacroComputed s r cv).equityGK = s.equityGK ∧
    (syncMacroComputed s r cv).absoluteReturn = s.absoluteReturn ∧
    (syncMacroComputed s r cv).baseCurrency = s.baseCurrency ∧
    ((∀ k v, cv k = some v →
        s.dirtyMacroFields r k = true ∨ ¬(|s.macroVals r k - v| > 1/1000)) →
      syncMacroComputed s r cv = s) := by
  by_cases hch : (macroKeys.any (syncQualifies s r cv)) = true
  · have hs2 : syncMacroComputed s r cv =
        { s with macroVals := fun r2 =>
            if r2 = r then
              fun k =>
                if syncQualifies s r cv k then
                  match cv k with
                  | some v => v
                  | none => s.macroVals r k
                else s.macroVals r k
            else s.macroVals r2 } := by
      unfold syncMacroComputed
      rw [if_pos hch]
    rw [hs2]
    refine ⟨?_, ?_, rfl, rfl, rfl, rfl, rfl, rfl, ?_⟩
    · intro k hne
      simp only [if_pos rfl] at hne ⊢
      by_cases hq : syncQualifies s r cv k = true
      · obtain ⟨hdf, v, hcvk, hgt⟩ := (syncQualifies_eq_true_iff s r cv k).mp hq
        refine ⟨hdf, v, hcvk, hgt, ?_⟩
        simp [hq, hcvk]
      · exfalso
        apply hne
        simp [hq]
    · intro r2 hr2
      simp [if_neg hr2]
    · intro hno
      exfalso
      obtain ⟨k, _, hq⟩ := List.any_eq_true.mp hch
      obtain ⟨hdf, v, hcvk, hgt⟩ := (syncQualifies_eq_true_iff s r cv k).mp hq
      rcases hno k v hcvk with h | h
      · rw [hdf] at h
        exact Bool.false_ne_true h
      · exact h hgt
  · have hs2 : syncMacroComputed s r cv = s := by
      unfold syncMacroComputed
      rw [if_neg hch]
    rw [hs2]
    exact ⟨fun k hne => absurd rfl hne, fun _ _ => rfl, rfl, rfl, rfl, rfl, rfl, rfl,
      fun _ => rfl⟩

/-- Closed instance of C9: a sync never touches the dirty set, and a sync
with an empty computed-values payload returns the state unchanged. -/
theorem syncMacroComputed_frame_witness :
    (syncMacroComputed initialState .us (cvSingle .inflation_forecast 9)).dirtyMacroFields =
      initialState.dirtyMacroFields ∧
    syncMacroComputed initialState .us cvNone = initialState :=
  ⟨(syncMacroComputed_frame initialState .us (cvSingle .inflation_forecast 9)).2.2.1,
   (syncMacroComputed_frame initialState .us cvNone).2.2.2.2.2.2.2.2
     (fun k v h => absurd h (by simp [cvNone]))⟩

/-! ## C10: dirty-flag monotonicity and domain -/

/-- C10: `loadScenario` never clears a dirty flag (the dirty set after a
load is a superset of the one before), and no store operation ever
creates a dirty flag for a key outside `DIRECT_FORECAST_KEYS`. -/
theorem dirty_monotone_and_direct_only :
    (∀ (s : InputState) (o : Overrides) (r : MacroRegion) (k : MacroKey),
      s.dirtyMacroFields r k = true →
        (loadScenarioOp s o).dirtyMacroFields r k = true) ∧
    (∀ (op : StoreOp) (s : InputState),
      dirtyOnlyDirect s → dirtyOnlyDirect (applyOp op s)) := by
  constructor
  · intro s o r k h
    show (match o.macroOv r with
      | some values => s.dirtyMacroFields r k || ((values k).isSome && isDirectKey k)
      | none => s.dirtyMacroFields r k) = true
    cases o.macroOv r <;> simp [h]
  · intro op s hs
    cases op with
    | setMacro r0 k0 v =>
      intro r k h
      by_cases hd : isDirectKey k0 = true
      · simp only [applyOp, setMacroValue, hd, if_true] at h
        by_cases hp : r = r0 ∧ k = k0
        · rw [hp.2]
          exact hd
        · rw [if_neg hp] at h
          exact hs r k h
      · have hd2 : isDirectKey k0 = false := by
          simpa using hd
        simp only [applyOp, setMacroValue, hd2, Bool.false_eq_true, if_false] at h
        exact hs r k h
    | syncMacro r0 cv =>
      intro r k h
      rw [show (applyOp (.syncMacro r0 cv) s).dirtyMacroFields = s.dirtyMacroFields from
        syncMacroComputed_dirty s r0 cv] at h
      exact hs r k h
    | setBond t k0 v =>
      intro r k h
      exact hs r k h
    | setEquity r0 k0 v =>
      intro r k h
      exact hs r k h
    | setEquityGK r0 k0 v =>
      intro r k h
      exact hs r k h
    | setModelType t =>
      intro r k h
      exact hs r k h
    | setAR k0 v =>
      intro r k h
      exact hs r k h
    | setCurrency c =>
      intro r k h
      exact hs r k h
    | setAdvanced b =>
      intro r k h
      exact hs r k h
    | reset =>
      intro r k h
      exact absurd h (by simp [applyOp, resetToDefaults])
    | fetch d =>
      intro r k h
      exact absurd h (by simp [applyOp, fetchDefaultsSuccess])
    | load o =>
      intro r k h
      show isDirectKey k = true
      have h2 : (match o.macroOv r with
          | some values => s.dirtyMacroFields r k || ((values k).isSome && isDirectKey k)
          | none => s.dirtyMacroFields r k) = true := h
      cases ho : o.macroOv r with
      | none =>
        rw [ho] at h2
        exact hs r k h2
      | some values =>
        rw [ho] at h2
        rcases (by simpa using h2 :
            s.dirtyMacroFields r k = true ∨
              (values k).isSome = true ∧ isDirectKey k = true) with h3 | h3
        · exact hs r k h3
        · exact h3.2

/-- Closed instance of C10: loading the empty payload keeps
`us.tbill_forecast` dirty, and a setter call on the fresh store keeps the
dirty set inside the direct-forecast keys. -/
theorem dirty_monotone_and_direct_only_witness :
    (loadScenarioOp dirtyTbillState emptyOverrides).dirtyMacroFields .us
      .tbill_forecast = true ∧
    dirtyOnlyDirect (applyOp (.setMacro .us .rgdp_growth 2) initialState) :=
  ⟨dirty_monotone_and_direct_only.1 dirtyTbillState emptyOverrides .us .tbill_forecast
      (by decide),
   dirty_monotone_and_direct_only.2 (.setMacro .us .rgdp_growth 2) initialState
      (fun r k h => Bool.noConfusion h)⟩

/-! ## C6: the conflict flag -/

/-- What the `conflicts` value of useMacroPreview.ts actually tests: a
preview is present, some building block moved off the hardcoded default,
the stored value (in decimals) is more than 0.0001 from the hardcoded
default, and the preview value is more than 0.0001 from the stored value.
The dirty flag is not consulted. -/
theorem conflicts_eq_true_iff (s : InputState) (region : MacroRegion)
    (computed : Option MacroPreview) (k : MacroKey) :
    conflictsOfState s region computed k = true ↔
      ∃ c v, computed = some c ∧ previewValue c k = some v ∧
        hasChangesOfState s region = true ∧
        |s.macroVals region k / 100 -
          DEFAULT_INPUTS.macroVals region k / 100| > 1/10000 ∧
        |v - s.macroVals region k / 100| > 1/10000 := by
  cases computed with
  | none => simp [conflictsOfState]
  | some c =>
    by_cases hhc : hasChangesOfState s region = true
    · cases k <;> simp [conflictsOfState, hhc, previewValue, and_assoc]
    · have hf : hasChangesOfState s region = false := by simpa using hhc
      simp [conflictsOfState, hf]

/-- C6 counterexample: in a state where `us.inflation_forecast` is 3.00
but NOT dirty (it was written by auto-sync, not by the user) and a live
preview computes 2.85%, the code reports a conflict although the field is
not dirty — refuting "conflict iff dirty and diverging" at this input. -/
theorem conflicts_dirty_counterexample :
    ¬ (conflictsOfState stateNonDirtyConflict .us (some previewNonDirty)
          .inflation_forecast = true ↔
        stateNonDirtyConflict.dirtyMacroFields .us .inflation_forecast = true ∧
          |previewNonDirty.inflation -
            stateNonDirtyConflict.macroVals .us .inflation_forecast / 100| >
            1/1000) := by
  intro hiff
  have hval : stateNonDirtyConflict.macroVals .us .inflation_forecast = 3 := rfl
  have hlt : stateNonDirtyConflict.macroVals .us .long_term_inflation = 3 := rfl
  have hconf : conflictsOfState stateNonDirtyConflict .us (some previewNonDirty)
      .inflation_forecast = true := by
    rw [conflicts_eq_true_iff]
    refine ⟨previewNonDirty, previewNonDirty.inflation, rfl, rfl, ?_, ?_, ?_⟩
    · refine List.any_eq_true.mpr ⟨.long_term_inflation, by simp [BUILDING_BLOCK_KEYS], ?_⟩
      simp only [decide_eq_true_eq, hlt]
      norm_num [DEFAULT_INPUTS, macroDefaults]
      rw [lt_abs]
      norm_num
    · rw [hval]
      norm_num [DEFAULT_INPUTS, macroDefaults]
      rw [lt_abs]
      norm_num
    · rw [hval]
      norm_num [previewNonDirty]
      rw [lt_abs]
      norm_num
  have hd := (hiff.mp hconf).1
  exact Bool.noConfusion hd

/-- C6 amended: the conflict flag is exactly the value-proximity test of
`conflicts_eq_true_iff` — computed preview present, building blocks off
the hardcoded defaults, stored value at least 0.0001 (decimal) from the
hardcoded default, and the preview at least 0.0001 (decimal) from the
stored value; dirtiness is approximated by distance-from-default and the
dirty flag itself is never consulted. -/
theorem conflicts_flag_characterization (s : InputState) (region : MacroRegion)
    (computed : Option MacroPreview) (k : MacroKey) :
    conflictsOfState s region computed k = true ↔
      ∃ c v, computed = some c ∧ previewValue c k = some v ∧
        hasChangesOfState s region = true ∧
        |s.macroVals region k / 100 -
          DEFAULT_INPUTS.macroVals region k / 100| > 1/10000 ∧
        |v - s.macroVals region k / 100| > 1/10000 :=
  conflicts_eq_true_iff s region computed k

/-- Closed instance of the amended C6: with no computed preview the
conflict flag is false. -/
theorem conflicts_flag_characterization_witness :
    conflictsOfState initialState .us none .inflation_forecast = false := by
  cases hb : conflictsOfState initialState .us none .inflation_forecast with
  | false => rfl
  | true =>
    obtain ⟨c, v, hc, -⟩ :=
      (conflicts_flag_characterization initialState .us none .inflation_forecast).mp hb
    exact Option.noConfusion hc

/-! ## C5: non-finite writes -/

/-- C5 evidence: `setMacroValue` has no finiteness guard — it stores
Infinity (and NaN) verbatim; even the UI's `handleChange` guard only
filters NaN, so Infinity reaches the store through it.  This contradicts
the specified behaviour (reject the write, retain the previous value). -/
theorem setMacroValue_accepts_nonfinite :
    (setMacroValueNum initialMacroNum .us .inflation_forecast .posInf).macroVals .us
        .inflation_forecast = .posInf ∧
    (handleChangeNum initialMacroNum .us .inflation_forecast .posInf).macroVals .us
        .inflation_forecast = .posInf ∧
    (setMacroValueNum initialMacroNum .us .inflation_forecast .nan).macroVals .us
        .inflation_forecast = .nan ∧
    NumV.isFiniteV .posInf = false :=
  ⟨rfl, rfl, rfl, rfl⟩

/-! ## C7: Grinold-Kroner valuation change -/

/-- C7: for positive P/E inputs the valuation-change component is the
ten-year P/E reversion rate (the panel carries it in percentage points,
hence the x100); for a non-positive current or target P/E it is exactly 0;
and the worked example 22.0 -> 20.0 lands within 0.01pp of -0.95%. -/
theorem gk_valuation_change_spec :
    (∀ c t : ℝ, 0 < c → 0 < t →
      valuationChange c t = ((t / c) ^ ((1 : ℝ) / 10) - 1) * 100) ∧
    (∀ c t : ℝ, c ≤ 0 ∨ t ≤ 0 → valuationChange c t = 0) ∧
    |valuationChange 22 20 - (-0.95)| < 0.01 := by
  refine ⟨?_, ?_, ?_⟩
  · intro c t hc ht
    unfold valuationChange
    rw [if_pos ⟨hc, ht⟩]
  · intro c t h
    unfold valuationChange
    rw [if_neg]
    rintro ⟨hc, ht⟩
    rcases h with h | h
    · exact absurd hc (not_lt.mpr h)
    · exact absurd ht (not_lt.mpr h)
  · have hv : valuationChange 22 20 = (((20:ℝ) / 22) ^ ((1 : ℝ) / 10) - 1) * 100 := by
      unfold valuationChange
      rw [if_pos ⟨by norm_num, by norm_num⟩]
    rw [hv]
    have hbase : ((20:ℝ)/22) = 10/11 := by norm_num
    have hxpos : (0:ℝ) < ((20:ℝ)/22) ^ ((1:ℝ)/10) :=
      Real.rpow_pos_of_pos (by norm_num) _
    have hxpow : (((20:ℝ)/22) ^ ((1:ℝ)/10)) ^ (10:ℕ) = 10/11 := by
      rw [hbase, ← Real.rpow_natCast (((10:ℝ)/11) ^ ((1:ℝ)/10)) 10,
        ← Real.rpow_mul (by norm_num : (0:ℝ) ≤ 10/11)]
      norm_num
    have hlow : (0.9904:ℝ) < ((20:ℝ)/22) ^ ((1:ℝ)/10) := by
      refine lt_of_pow_lt_pow_left₀ 10 (le_of_lt hxpos) ?_
      rw [hxpow]
      norm_num
    have hhigh : ((20:ℝ)/22) ^ ((1:ℝ)/10) < (0.9906:ℝ) := by
      refine lt_of_pow_lt_pow_left₀ 10 (by norm_num) ?_
      rw [hxpow]
      norm_num
    rw [abs_lt]
    constructor <;> linarith

/-- Closed instance of C7: the formula at the worked example's inputs and
the guard at a zero current P/E. -/
theorem gk_valuation_change_spec_witness :
    valuationChange 22 20 = (((20:ℝ) / 22) ^ ((1 : ℝ) / 10) - 1) * 100 ∧
    valuationChange 0 5 = 0 :=
  ⟨gk_valuation_change_spec.1 22 20 (by norm_num) (by norm_num),
   gk_valuation_change_spec.2.1 0 5 (Or.inl (by norm_num))⟩

end RaCme
